import Mathlib

/-!
Shallow embedding of the arithmetic core of `src/vto_growth_app.py`, a
growth-aware dental VTO (Visual Treatment Objective) calculator.

Modelling conventions: Python floats are modelled as rationals; the
dictionaries returned by the core functions are modelled as structures whose
fields carry the dictionary keys; the fallible dictionary lookup
`GROWTH_DATA[cvms_stage]` is modelled with `Option` (where `none` is the
`KeyError` of the Python lookup).  All definitions are direct transcriptions
of the Python source, with line references in the doc comments.
-/

set_option linter.unusedVariables false

namespace VTO

/-- The CVMS growth-rate table `GROWTH_DATA` (lines 78-87): each stage maps
to an annual rate triple (sagittal, vertical, transverse) in mm/year.  The
`description` strings of the Python dict are presentation-only and omitted. -/
def GROWTH_DATA (stage : String) : Option (ℚ × ℚ × ℚ) :=
  if stage = "No growth remaining" then some (0.0, 0.0, 0.0)
  else if stage = "CVMS 1" then some (1.75, 2.25, 1.25)
  else if stage = "CVMS 2" then some (2.5, 2.25, 1.25)
  else if stage = "CVMS 3" then some (3.75, 3.5, 1.75)
  else if stage = "CVMS 4" then some (2.5, 2.25, 1.25)
  else if stage = "CVMS 5" then some (1.0, 1.25, 0.75)
  else if stage = "CVMS 6" then some (0.25, 0.25, 0.25)
  else if stage = "Custom" then some (0.0, 0.0, 0.0)
  else none

/-- The result dict of `calculate_growth_space_equivalent` (lines 112-123
and 156-166), with one field per dictionary key. -/
structure GrowthResult where
  upper_total : ℚ
  lower_total : ℚ
  sagittal : ℚ
  vertical : ℚ
  transverse : ℚ
  upper_from_sagittal : ℚ
  lower_from_sagittal : ℚ
  upper_from_transverse : ℚ
  lower_from_transverse : ℚ
deriving DecidableEq

/-- The rate-triple selection inside `calculate_growth_space_equivalent`
(lines 125-133): custom rates when the stage is "Custom", otherwise the
`GROWTH_DATA[cvms_stage]` lookup (which can fail on an unknown key). -/
def growth_rates (cvms_stage : String)
    (custom_sagittal custom_vertical custom_transverse : ℚ) :
    Option (ℚ × ℚ × ℚ) :=
  if cvms_stage = "Custom" then
    some (custom_sagittal, custom_vertical, custom_transverse)
  else GROWTH_DATA cvms_stage

/-- `calculate_growth_space_equivalent` (lines 90-166): converts a CVMS
stage (or custom annual rates) and a treatment duration in months into
space-equivalent contributions per arch; returns all zeros without touching
the growth inputs when `include_growth` is false. -/
def calculate_growth_space_equivalent (cvms_stage : String)
    (treatment_duration_months : ℚ) (include_growth : Bool)
    (custom_sagittal custom_vertical custom_transverse : ℚ) :
    Option GrowthResult :=
  if !include_growth then
    some ⟨0.0, 0.0, 0.0, 0.0, 0.0, 0.0, 0.0, 0.0, 0.0⟩
  else
    match growth_rates cvms_stage custom_sagittal custom_vertical custom_transverse with
    | none => none
    | some (s, v, t) =>
      let treatment_duration_years := treatment_duration_months / 12.0
      let sagittal_growth := s * treatment_duration_years
      let vertical_growth := v * treatment_duration_years
      let transverse_growth := t * treatment_duration_years
      let upper_from_sagittal := sagittal_growth * 0.3
      let lower_from_sagittal := sagittal_growth * 0.7
      let upper_from_transverse := transverse_growth * 2.0
      let lower_from_transverse := transverse_growth * 2.0
      let upper_total := upper_from_sagittal + upper_from_transverse
      let lower_total := lower_from_sagittal + lower_from_transverse
      some ⟨upper_total, lower_total, sagittal_growth, vertical_growth,
            transverse_growth, upper_from_sagittal, lower_from_sagittal,
            upper_from_transverse, lower_from_transverse⟩

/-- `remaining_status` (lines 180-186): classifies a remaining discrepancy
with a 0.05 mm dead-band around zero. -/
def remaining_status (x : ℚ) : String :=
  if |x| < 0.05 then "≈ balanced (near 0)"
  else if x < 0 then "Still short on space (crowding remains)"
  else "Excess space (spacing remains)"

/-- `compute_initial_discrepancy` (lines 189-194): the initial discrepancy
is the plain sum of its four contributing rows. -/
def compute_initial_discrepancy (ant_cs cos_ midline_component incisor_pos : ℚ) : ℚ :=
  ant_cs + cos_ + midline_component + incisor_pos

/-- `compute_remaining_dolphin` (lines 197-204): total gained is the sum of
the space-gained rows, remaining is initial plus total gained. -/
def compute_remaining_dolphin (initial strip expansion distal extraction
    growth_space : ℚ) : ℚ × ℚ :=
  let gained := strip + expansion + distal + extraction + growth_space
  let remaining := initial + gained
  (gained, remaining)

/-- The result dict of `expected_movement_allocation` (lines 572 and 587):
field `six` carries dict key "6" (molar), `three` carries key "3" (canine),
`inc` carries key "inc" (incisor). -/
structure Alloc where
  six : ℚ
  three : ℚ
  inc : ℚ
deriving DecidableEq

/-- `expected_movement_allocation` (lines 559-587): crowding
(`remaining < 0`) gives every segment the full magnitude; otherwise the
treatment goal selects an (anterior, posterior) weight pair, with any goal
other than "Class II"/"Class III" taking the final `else` pair (0.55, 0.45). -/
def expected_movement_allocation (remaining : ℚ) (treat_to : String) : Alloc :=
  let mag := |remaining|
  if remaining < 0 then
    { six := mag, three := mag, inc := mag }
  else
    let w : ℚ × ℚ :=
      if treat_to = "Class II" then (0.65, 0.35)
      else if treat_to = "Class III" then (0.45, 0.55)
      else (0.55, 0.45)
    let anterior := mag * w.1
    let posterior := mag * w.2
    let inc := anterior * 0.55
    let canine := anterior * 0.45
    let molar := posterior
    { six := molar, three := canine, inc := inc }

/-- `movement_sign` (lines 590-624): 0 on a zero remaining, -1 on any
negative remaining, and on a positive remaining +1 for molars ("6") and
-1 for every other tooth type.  The `side` parameter is accepted but never
read by the Python function. -/
def movement_sign (rem : ℚ) (side : String) (tooth_type : String) : ℚ :=
  if rem = 0 then 0.0
  else if rem < 0 then -1.0
  else if tooth_type = "6" then 1.0
  else -1.0

/-- The per-arch movement plan of Step 3 (lines 1349-1514): five signed
displacement values per arch, in the order they are rendered. -/
structure MovementPlan where
  u_r6 : ℚ
  u_r3 : ℚ
  u_inc : ℚ
  u_l3 : ℚ
  u_l6 : ℚ
  l_r6 : ℚ
  l_r3 : ℚ
  l_inc : ℚ
  l_l3 : ℚ
  l_l6 : ℚ
deriving DecidableEq

/-- The McLaughlin VTO movement computation of Step 3 (lines 1349-1439),
transcribed statement by statement: lower incisor correction is the negated
lower dental midline (line 1364), canines take the 3-3 remaining, molars add
the premolar space, upper values derive from lower ones minus the initial
molar offsets and the extraction space, the class adjustment is added to the
four upper molar/canine values only, and the upper incisor correction is the
negated upper midline (line 1439). -/
def mclaughlin_vto_plan (rem_33_R rem_33_L rem_77_R rem_77_L
    lower_dental_midline upper_midline r6_init l6_init
    upper_extraction_R upper_extraction_L : ℚ) (treat_to : String) :
    MovementPlan :=
  let l_inc := -lower_dental_midline
  let l_r3 := rem_33_R
  let l_l3 := rem_33_L
  let lower_premolar_space_R := rem_77_R - rem_33_R
  let lower_premolar_space_L := rem_77_L - rem_33_L
  let l_r6 := l_r3 + lower_premolar_space_R
  let l_l6 := l_l3 + lower_premolar_space_L
  let u_r6 := l_r6 - r6_init
  let u_l6 := l_l6 - l6_init
  let u_r3 := u_r6 - upper_extraction_R
  let u_l3 := u_l6 - upper_extraction_L
  let class_adjustment : ℚ :=
    if treat_to = "Class II" then 7.0
    else if treat_to = "Class III" then -6.0
    else 0.0
  let u_r6 := u_r6 + class_adjustment
  let u_l6 := u_l6 + class_adjustment
  let u_r3 := u_r3 + class_adjustment
  let u_l3 := u_l3 + class_adjustment
  let u_inc := -upper_midline
  ⟨u_r6, u_r3, u_inc, u_l3, u_l6, l_r6, l_r3, l_inc, l_l3, l_l6⟩

/-- C8: Initial Discrepancy is a pure sum of its four components, with no
clamping, weighting, or rounding. -/
theorem C8_initial_discrepancy_additive (a b c d : ℚ) :
    compute_initial_discrepancy a b c d = a + b + c + d := rfl

/-- C3: `compute_remaining_dolphin` returns exactly
(total gained, initial + total gained), where total gained is the plain sum
of the five space-gained rows; the function is pure. -/
theorem C3_remaining_balance (initial strip expansion distal extraction
    growth_space : ℚ) :
    compute_remaining_dolphin initial strip expansion distal extraction
        growth_space =
      (strip + expansion + distal + extraction + growth_space,
       initial + (strip + expansion + distal + extraction + growth_space)) := rfl

/-- C5: with growth disabled, `calculate_growth_space_equivalent` returns
exactly zero in every field for every stage string (known or not), every
duration and every custom rate triple; in particular the result is always
`some`, never a lookup failure. -/
theorem C5_growth_disabled_zero (stage : String) (m cs cv ct : ℚ) :
    calculate_growth_space_equivalent stage m false cs cv ct =
      some ⟨0, 0, 0, 0, 0, 0, 0, 0, 0⟩ := by
  norm_num [calculate_growth_space_equivalent]

/-- C7: in the Step-3 movement plan, the incisor entry of each arch is the
exact negation of that arch's dental midline offset, independent of the
remaining discrepancies, extraction spaces, molar offsets and treatment
goal. -/
theorem C7_midline_correction (rem_33_R rem_33_L rem_77_R rem_77_L
    lower_dental_midline upper_midline r6_init l6_init
    upper_extraction_R upper_extraction_L : ℚ) (treat_to : String) :
    (mclaughlin_vto_plan rem_33_R rem_33_L rem_77_R rem_77_L
        lower_dental_midline upper_midline r6_init l6_init
        upper_extraction_R upper_extraction_L treat_to).l_inc =
      -lower_dental_midline ∧
    (mclaughlin_vto_plan rem_33_R rem_33_L rem_77_R rem_77_L
        lower_dental_midline upper_midline r6_init l6_init
        upper_extraction_R upper_extraction_L treat_to).u_inc =
      -upper_midline := ⟨rfl, rfl⟩

/-- C1: the movement-allocation magnitudes have exactly two regimes: any
negative remaining gives every segment the full magnitude for every goal;
a positive remaining is split by the goal's weight pair (Class I
(0.55, 0.45), Class II (0.65, 0.35), Class III (0.45, 0.55)) with
molar = posterior, incisor = anterior × 0.55, canine = anterior × 0.45;
a zero remaining gives all-zero magnitudes for every goal. -/
theorem C1_allocation_regimes (r : ℚ) (goal : String) :
    (r < 0 → expected_movement_allocation r goal =
      { six := |r|, three := |r|, inc := |r| }) ∧
    (0 < r → expected_movement_allocation r ("Class I") =
      { six := |r| * 0.45, three := |r| * 0.55 * 0.45, inc := |r| * 0.55 * 0.55 }) ∧
    (0 < r → expected_movement_allocation r ("Class II") =
      { six := |r| * 0.35, three := |r| * 0.65 * 0.45, inc := |r| * 0.65 * 0.55 }) ∧
    (0 < r → expected_movement_allocation r ("Class III") =
      { six := |r| * 0.55, three := |r| * 0.45 * 0.45, inc := |r| * 0.45 * 0.55 }) ∧
    expected_movement_allocation 0 goal = { six := 0, three := 0, inc := 0 } := by
  refine ⟨?_, ?_, ?_, ?_, ?_⟩
  · intro h
    simp [expected_movement_allocation, h]
  · intro h
    simp [expected_movement_allocation, asymm h]
  · intro h
    simp [expected_movement_allocation, asymm h]
  · intro h
    simp [expected_movement_allocation, asymm h]
  · simp [expected_movement_allocation]

/-- C1 witness: concrete evaluations exercising the crowding regime and the
Class II spacing regime of `C1_allocation_regimes`. -/
theorem C1_allocation_regimes_witness :
    expected_movement_allocation (-2) ("Class III") =
      { six := |(-2 : ℚ)|, three := |(-2 : ℚ)|, inc := |(-2 : ℚ)| } ∧
    expected_movement_allocation 2 ("Class II") =
      { six := |(2 : ℚ)| * 0.35, three := |(2 : ℚ)| * 0.65 * 0.45,
        inc := |(2 : ℚ)| * 0.65 * 0.55 } :=
  ⟨(C1_allocation_regimes (-2) ("Class III")).1 (by norm_num),
   (C1_allocation_regimes 2 ("Class II")).2.2.1 (by norm_num)⟩

/-- C2 counterexample: in the crowding regime a Left-side tooth does not
receive a positive sign — `movement_sign (-1) "L" "6"` is -1, not positive,
so left-side teeth are not sent toward the patient's left. -/
theorem C2_counterexample :
    movement_sign (-1) ("L") ("6") = -1 ∧
    ¬ (0 < movement_sign (-1) ("L") ("6")) := by
  norm_num [movement_sign]

/-- C2 amended: in the crowding regime (remaining < 0) `movement_sign`
returns -1 (toward the patient's right) for every tooth type on every side:
Right-side teeth do receive a negative sign, but Left-side teeth receive the
same negative sign rather than a positive one, because the function never
reads its side argument. -/
theorem C2_crowding_sign_uniform (rem : ℚ) (h : rem < 0)
    (side tooth_type : String) :
    movement_sign rem side tooth_type = -1 := by
  norm_num [movement_sign, ne_of_lt h, h]

/-- C2 witness: concrete evaluation of `C2_crowding_sign_uniform`. -/
theorem C2_crowding_sign_uniform_witness :
    (-3 : ℚ) < 0 ∧ movement_sign (-3) ("R") ("inc") = -1 :=
  ⟨by norm_num, C2_crowding_sign_uniform (-3) (by norm_num) ("R") ("inc")⟩

/-- C4: with growth included, any resolved annual rate triple (r, v, t) and
duration m months gives the sagittal space-equivalent split 0.3/0.7 between
upper and lower arch, the full bilateral transverse contribution
2 × t × (m/12) to each arch, zero space-equivalent contribution from
vertical growth (each total is exactly the sagittal share plus the
transverse contribution), and the vertical growth still returned for
display. -/
theorem C4_growth_split (stage : String) (cs cv ct m r v t : ℚ)
    (h : growth_rates stage cs cv ct = some (r, v, t)) :
    calculate_growth_space_equivalent stage m true cs cv ct =
      some { upper_total := 0.3 * r * (m / 12) + 2.0 * t * (m / 12)
             lower_total := 0.7 * r * (m / 12) + 2.0 * t * (m / 12)
             sagittal := r * (m / 12)
             vertical := v * (m / 12)
             transverse := t * (m / 12)
             upper_from_sagittal := 0.3 * r * (m / 12)
             lower_from_sagittal := 0.7 * r * (m / 12)
             upper_from_transverse := 2.0 * t * (m / 12)
             lower_from_transverse := 2.0 * t * (m / 12) } := by
  unfold calculate_growth_space_equivalent
  rw [h]
  norm_num
  refine ⟨?_, ?_, ?_, ?_, ?_⟩ <;> ring

/-- C4 witness: concrete evaluation of `C4_growth_split` on custom rates
(1, 2, 3) over 12 months. -/
theorem C4_growth_split_witness :
    calculate_growth_space_equivalent ("Custom") 12 true 1 2 3 =
      some { upper_total := 0.3 * 1 * ((12 : ℚ) / 12) + 2.0 * 3 * ((12 : ℚ) / 12)
             lower_total := 0.7 * 1 * ((12 : ℚ) / 12) + 2.0 * 3 * ((12 : ℚ) / 12)
             sagittal := 1 * ((12 : ℚ) / 12)
             vertical := 2 * ((12 : ℚ) / 12)
             transverse := 3 * ((12 : ℚ) / 12)
             upper_from_sagittal := 0.3 * 1 * ((12 : ℚ) / 12)
             lower_from_sagittal := 0.7 * 1 * ((12 : ℚ) / 12)
             upper_from_transverse := 2.0 * 3 * ((12 : ℚ) / 12)
             lower_from_transverse := 2.0 * 3 * ((12 : ℚ) / 12) } :=
  C4_growth_split ("Custom") 1 2 3 12 1 2 3 (by simp [growth_rates])

/-- C6: `remaining_status` classifies by the 0.05 dead-band exactly:
magnitudes under 0.05 are balanced, values under -0.05 report crowding,
values over 0.05 report spacing; in particular 0.049 is balanced, 0.051 is
the spacing label and -0.051 the crowding label. -/
theorem C6_status_deadband (x : ℚ) :
    (|x| < 0.05 → remaining_status x = "≈ balanced (near 0)") ∧
    (x < -0.05 → remaining_status x = "Still short on space (crowding remains)") ∧
    (0.05 < x → remaining_status x = "Excess space (spacing remains)") ∧
    remaining_status 0.049 = "≈ balanced (near 0)" ∧
    remaining_status 0.051 = "Excess space (spacing remains)" ∧
    remaining_status (-0.051) = "Still short on space (crowding remains)" := by
  refine ⟨?_, ?_, ?_, ?_, ?_, ?_⟩
  · intro h
    simp [remaining_status, h]
  · intro h
    have h1 : ¬ |x| < 0.05 := not_lt.mpr (le_trans (by linarith) (neg_le_abs x))
    have h2 : x < 0 := by linarith
    simp [remaining_status, h1, h2]
  · intro h
    have h1 : ¬ |x| < 0.05 := not_lt.mpr (le_trans h.le (le_abs_self x))
    have h2 : ¬ x < 0 := by linarith
    simp [remaining_status, h1, h2]
  · have e : |(0.049 : ℚ)| < 0.05 := by
      rw [abs_of_pos (show (0 : ℚ) < 0.049 by norm_num)]
      norm_num
    simp [remaining_status, e]
  · have e1 : ¬ |(0.051 : ℚ)| < 0.05 := by
      rw [abs_of_pos (show (0 : ℚ) < 0.051 by norm_num)]
      norm_num
    have e2 : ¬ (0.051 : ℚ) < 0 := by norm_num
    simp [remaining_status, e1, e2]
  · have e1 : ¬ |(0.051 : ℚ)| < 0.05 := by
      rw [abs_of_pos (show (0 : ℚ) < 0.051 by norm_num)]
      norm_num
    have e2 : (-0.051 : ℚ) < 0 := by norm_num
    simp [remaining_status, e1, e2]

/-- C6 witness: concrete evaluation of the dead-band branch of
`C6_status_deadband`. -/
theorem C6_status_deadband_witness :
    |(0.03 : ℚ)| < 0.05 ∧ remaining_status 0.03 = "≈ balanced (near 0)" := by
  have h : |(0.03 : ℚ)| < 0.05 := by
    rw [abs_of_pos (show (0 : ℚ) < 0.03 by norm_num)]
    norm_num
  exact ⟨h, (C6_status_deadband 0.03).1 h⟩

/-- C9 counterexample: `expected_movement_allocation` with a goal outside
the three enumerated classes does not fail — it silently falls back to the
Class I weight pair, returning the same values as for "Class I". -/
theorem C9_counterexample :
    expected_movement_allocation 1 ("Class IV") =
      expected_movement_allocation 1 ("Class I") ∧
    expected_movement_allocation 1 ("Class IV") =
      { six := 0.45, three := 0.2475, inc := 0.3025 } := by
  constructor
  · simp [expected_movement_allocation]
  · simp [expected_movement_allocation]
    norm_num

/-- C9 amended: with growth enabled, a growth-stage key outside the table
(and not "Custom") makes `calculate_growth_space_equivalent` fail via the
lookup (it returns no value); but `expected_movement_allocation` with a
treatment-goal key outside its enumerated set does not fail — it silently
uses the default Class I weight pair (0.55, 0.45). -/
theorem C9_enum_error_behavior (stage goal : String) (m cs cv ct r : ℚ)
    (hs : stage ≠ "Custom") (hn : GROWTH_DATA stage = none)
    (h2 : goal ≠ "Class II") (h3 : goal ≠ "Class III") :
    calculate_growth_space_equivalent stage m true cs cv ct = none ∧
    expected_movement_allocation r goal =
      expected_movement_allocation r ("Class I") := by
  constructor
  · simp [calculate_growth_space_equivalent, growth_rates, hs, hn]
  · simp [expected_movement_allocation, h2, h3]

/-- C9 witness: concrete evaluation of `C9_enum_error_behavior` on the
unknown stage "CVMS 9" and the unknown goal "Class IV". -/
theorem C9_enum_error_behavior_witness :
    calculate_growth_space_equivalent ("CVMS 9") 24 true 0 0 0 = none ∧
    expected_movement_allocation 1 ("Class IV") =
      expected_movement_allocation 1 ("Class I") :=
  C9_enum_error_behavior ("CVMS 9") ("Class IV") 24 0 0 0 1
    (by decide) (by simp [GROWTH_DATA]) (by decide) (by decide)

/-- C10: `movement_sign` never depends on the side argument; every negative
remaining gives -1 for every tooth on both sides, and every positive
remaining gives +1 for molars ("6") and -1 for every other tooth type. -/
theorem C10_sign_side_independent (rem : ℚ) (s1 s2 tooth : String) :
    movement_sign rem s1 tooth = movement_sign rem s2 tooth ∧
    (rem < 0 → movement_sign rem s1 tooth = -1) ∧
    (0 < rem → movement_sign rem s1 ("6") = 1) ∧
    (0 < rem → tooth ≠ "6" → movement_sign rem s1 tooth = -1) := by
  refine ⟨rfl, ?_, ?_, ?_⟩
  · intro h
    norm_num [movement_sign, ne_of_lt h, h]
  · intro h
    norm_num [movement_sign, ne_of_gt h, asymm h]
  · intro h ht
    norm_num [movement_sign, ne_of_gt h, asymm h, ht]

/-- C10 witness: concrete evaluations of `C10_sign_side_independent`
covering the negative regime and both tooth kinds of the positive regime. -/
theorem C10_sign_side_independent_witness :
    ((-1 : ℚ) < 0 ∧ movement_sign (-1) ("R") ("3") = -1) ∧
    ((0 : ℚ) < 2 ∧ movement_sign 2 ("L") ("6") = 1) ∧
    movement_sign 2 ("L") ("inc") = -1 :=
  ⟨⟨by norm_num, (C10_sign_side_independent (-1) ("R") ("X") ("3")).2.1 (by norm_num)⟩,
   ⟨by norm_num, (C10_sign_side_independent 2 ("L") ("X") ("3")).2.2.1 (by norm_num)⟩,
   (C10_sign_side_independent 2 ("L") ("X") ("inc")).2.2.2 (by norm_num) (by decide)⟩

end VTO
